import Mathlib

/-!
# Verification of the ai-coding-evaluator Evaluation Orchestration Engine

This file gives a shallow embedding, in Lean 4, of the core orchestration
logic of the ai-coding-evaluator backend:

* `ScoringEngineService.calculateOverallScore` and `validateScore`
  (`src/backend/src/services/scoring-engine.service.ts`),
* `QuestionGeneratorService.generateFollowUp`
  (`src/backend/src/services/question-generator.service.ts`),
* `TaskSchedulerService.executeEvaluationTask`, `executeEvaluationFlow`,
  `handleFollowUps`, `updateProgress`, `calculateTotalSteps`,
  `calculateTaskStatistics`, `cancelTask`
  (`src/backend/src/services/task-scheduler.service.ts`),
* the task store of `MemoryStorageService` (`updateTask`), restricted to the
  `status` field, which is the only field the scheduler ever updates.

JavaScript `Map`s are embedded as association lists, awaited collaborator
calls (LLM question generation, browser automation, scoring analysis) as
explicit behaviour parameters returning `Except`/`Option` values, and the
numeric score computation as exact IEEE-754 binary64 arithmetic over scaled
natural numbers.  Wall-clock fields (`Date` timestamps) carry no program
logic and are omitted from the embedded records.

Theorems about the embedding follow the definitions.
-/

namespace AIEval

/-! ## Binary64 model for the score computation

`calculateOverallScore` adds the five products `subScore * weight` with
JavaScript `+=` on IEEE-754 binary64 numbers and applies `Math.round`.
Every value arising in that computation (the five weight literals, each
product of a sub-score in `{0,…,4}` with a weight, and each partial sum)
is an integer multiple of `2 ^ (-56)` lying far inside the normal range,
so we represent a binary64 value `v` by the natural number `v * 2 ^ 56`
and implement binary64 rounding (round to nearest, ties to even, 53
significant bits) exactly on this representation. -/

/-- Round `k` to the nearest multiple of `step` (a power of two), ties going
to the even multiple — one rounding step of binary64 arithmetic on the scaled
representation. -/
def rdStep (k step : Nat) : Nat :=
  let q := k / step
  let r := k % step
  if r > step / 2 ∨ (r = step / 2 ∧ q % 2 = 1) then (q + 1) * step else q * step

/-- Binary64 rounding (round to nearest, ties to even) of an exact value
`k / 2 ^ 56` to 53 significant bits, on the scaled representation: values of
at most 53 binary digits (`k < 2 ^ 53`) are exact; a value of `53 + d` binary
digits is rounded to the nearest multiple of `2 ^ d`, ties to even.  The
case split on the number of binary digits is written as a comparison chain so
that it evaluates by kernel-accelerated arithmetic; values of `2 ^ 8` and
above (`k ≥ 2 ^ 64`) never arise in the score computation and are returned
unchanged. -/
def rd56 (k : Nat) : Nat :=
  if k < 2 ^ 53 then k
  else if k < 2 ^ 54 then rdStep k (2 ^ 1)
  else if k < 2 ^ 55 then rdStep k (2 ^ 2)
  else if k < 2 ^ 56 then rdStep k (2 ^ 3)
  else if k < 2 ^ 57 then rdStep k (2 ^ 4)
  else if k < 2 ^ 58 then rdStep k (2 ^ 5)
  else if k < 2 ^ 59 then rdStep k (2 ^ 6)
  else if k < 2 ^ 60 then rdStep k (2 ^ 7)
  else if k < 2 ^ 61 then rdStep k (2 ^ 8)
  else if k < 2 ^ 62 then rdStep k (2 ^ 9)
  else if k < 2 ^ 63 then rdStep k (2 ^ 10)
  else if k < 2 ^ 64 then rdStep k (2 ^ 11)
  else k

/-- The binary64 value of the literal `0.3`, scaled by `2 ^ 56`
(`0.3` is `5404319552844595 / 2 ^ 54` as a double). -/
def dbl03 : Nat := 5404319552844595 * 4

/-- The binary64 value of the literal `0.25` (exact), scaled by `2 ^ 56`. -/
def dbl025 : Nat := 2 ^ 54

/-- The binary64 value of the literal `0.2`, scaled by `2 ^ 56`
(`0.2` is `3602879701896397 / 2 ^ 54` as a double). -/
def dbl02 : Nat := 3602879701896397 * 4

/-- The binary64 value of the literal `0.15`, scaled by `2 ^ 56`
(`0.15` is `5404319552844595 / 2 ^ 55` as a double). -/
def dbl015 : Nat := 5404319552844595 * 2

/-- The binary64 value of the literal `0.1`, scaled by `2 ^ 56`
(`0.1` is `3602879701896397 / 2 ^ 55` as a double). -/
def dbl01 : Nat := 3602879701896397 * 2

/-- Binary64 product of a small natural number (a validated sub-score) with a
scaled weight constant: the product is exact in the scaled representation and
is then rounded to 53 significant bits. -/
def fpMulNat (a w : Nat) : Nat := rd56 (a * w)

/-- Binary64 addition of two scaled values: the sum is exact in the scaled
representation and is then rounded to 53 significant bits. -/
def fpAdd (x y : Nat) : Nat := rd56 (x + y)

/-- JavaScript `Math.round` on a (nonnegative) scaled binary64 value: the
nearest integer, ties toward `+∞`, i.e. `⌊v + 1/2⌋`. -/
def jsRound56 (k : Nat) : Nat := (k + 2 ^ 55) / 2 ^ 56

/-! ## Exact model of `Math.round` on rational values -/

/-- JavaScript `Math.round` modelled on exact rationals: the nearest integer,
ties toward `+∞`, i.e. `⌊x + 1/2⌋`, written with integer division on the
numerator and denominator so that it evaluates inside the kernel.
`jsMathRound_eq_round` certifies it against Mathlib's `round`. -/
def jsMathRound (x : ℚ) : ℤ := (2 * x.num + (x.den : ℤ)) / (2 * (x.den : ℤ))

theorem jsMathRound_eq_round (x : ℚ) : jsMathRound x = round x := by
  have hden : ((x.den : ℚ)) ≠ 0 := by
    exact_mod_cast x.den_nz
  have hnum : ((x.num : ℚ)) = x * x.den := (div_eq_iff hden).mp (Rat.num_div_den x)
  rw [round_eq, jsMathRound]
  have hx : x + 1 / 2 = ((2 * x.num + (x.den : ℤ) : ℤ) : ℚ) / ((2 * x.den : ℕ) : ℚ) := by
    rw [eq_div_iff (by push_cast; positivity)]
    push_cast
    rw [hnum]
    ring
  rw [hx, Rat.floor_intCast_div_natCast]
  push_cast
  ring_nf

/-! ## Scoring engine (`scoring-engine.service.ts`) -/

/-- The five-dimension analysis produced by `analyzeResponse`
(`ResponseAnalysis` in `models/index.ts`); only the numeric sub-scores enter
`calculateOverallScore`, so the free-text lists are omitted. -/
structure ResponseAnalysis where
  accuracy : Nat
  completeness : Nat
  clarity : Nat
  usefulness : Nat
  codeQuality : Nat
deriving DecidableEq, Repr

/-- Model of `ScoringEngineService.validateScore`: a parsed sub-score (`none` models a
non-numeric value, `some q` the numeric value) is replaced by the neutral `2`
when missing, `NaN` or outside `[0,4]`, and otherwise `Math.round`ed. -/
def validateScore (score : Option ℚ) : Nat :=
  match score with
  | none => 2
  | some q => if q < 0 ∨ q > 4 then 2 else (jsMathRound q).toNat

/-- Model of `ScoringEngineService.calculateOverallScore`: the weighted sum
`weightedScore += accuracy*0.3; += completeness*0.25; += clarity*0.2;
+= usefulness*0.15; += codeQuality*0.1` evaluated exactly as JavaScript does —
left-to-right on IEEE-754 binary64 numbers, starting from `0` — followed by
`Math.round`. -/
def calculateOverallScore (an : ResponseAnalysis) : Nat :=
  jsRound56 <|
    fpAdd
      (fpAdd
        (fpAdd
          (fpAdd
            (fpAdd 0 (fpMulNat an.accuracy dbl03))
            (fpMulNat an.completeness dbl025))
          (fpMulNat an.clarity dbl02))
        (fpMulNat an.usefulness dbl015))
      (fpMulNat an.codeQuality dbl01)

/-- Modelled from the spec's words, for comparison with the code: overall
score = `round(0.30a + 0.25c + 0.20l + 0.15u + 0.10q)` in exact arithmetic,
clamped to `[0,4]`. -/
def specOverallScore (a c l u q : Nat) : ℤ :=
  max 0 (min 4 (jsMathRound (mkRat (30 * a + 25 * c + 20 * l + 15 * u + 10 * q) 100)))

/-- The spec formula written with Mathlib's `round`, shown equal to the
kernel-evaluable form used in `specOverallScore`. -/
theorem specOverallScore_eq_round (a c l u q : Nat) :
    specOverallScore a c l u q =
      max 0 (min 4 (round ((30 * a + 25 * c + 20 * l + 15 * u + 10 * q : ℚ) / 100))) := by
  rw [specOverallScore, jsMathRound_eq_round, Rat.mkRat_eq_div]
  push_cast
  ring_nf

/-! ### Theorems for claim C5 -/

/-- Claim C5, counterexample.  The claim states that the computed overall score
always equals `round(0.30a + 0.25c + 0.20l + 0.15u + 0.10q)` clamped to
`[0,4]`.  At sub-scores `(a,c,l,u,q) = (0,2,1,4,2)` the exact weighted sum is
`1.5`, so the spec formula gives `2`; but the binary64 evaluation performed by
the code yields `1.4999999999999998` and `Math.round` returns `1`. -/
theorem calculateOverallScore_ne_spec_at_0_2_1_4_2 :
    calculateOverallScore ⟨0, 2, 1, 4, 2⟩ = 1 ∧
    specOverallScore 0 2 1 4 2 = 2 := by decide

/-- For sub-scores bounded by `4`, the spec formula reduces to the pure
natural-number expression `(6a + 5c + 4l + 3u + 2q + 10) / 20` (the weighted
sum in twentieths, rounded half-up): the clamp to `[0,4]` never bites. -/
theorem specOverallScore_eq_nat (a c l u q : Nat)
    (ha : a ≤ 4) (hc : c ≤ 4) (hl : l ≤ 4) (hu : u ≤ 4) (hq : q ≤ 4) :
    specOverallScore a c l u q =
      ((6 * a + 5 * c + 4 * l + 3 * u + 2 * q + 10) / 20 : ℕ) := by
  rw [specOverallScore_eq_round]
  set S : ℕ := 6 * a + 5 * c + 4 * l + 3 * u + 2 * q with hS
  have hcast : (30 * a + 25 * c + 20 * l + 15 * u + 10 * q : ℚ) / 100 = (S : ℚ) / 20 := by
    rw [hS]
    push_cast
    ring
  rw [hcast, round_eq]
  have hhalf : (S : ℚ) / 20 + 1 / 2 = ((2 * S + 20 : ℕ) : ℚ) / ((40 : ℕ) : ℚ) := by
    push_cast
    ring
  rw [hhalf, Rat.floor_natCast_div_natCast]
  have hSle : S ≤ 80 := by omega
  have hdiv : (2 * S + 20) / 40 = (S + 10) / 20 := by omega
  have hle : (S + 10) / 20 ≤ 4 := by omega
  have hx : ((2 * S + 20 : ℕ) : ℤ) / ((40 : ℕ) : ℤ) = (((S + 10) / 20 : ℕ) : ℤ) := by
    rw [← Int.natCast_div, hdiv]
  rw [hx, min_eq_right (by exact_mod_cast hle), max_eq_right (by positivity)]

set_option maxRecDepth 40000 in
set_option maxHeartbeats 4000000 in
/-- The 3125-case core computation behind the amended C5 claim, carried out
entirely in kernel-accelerated natural-number arithmetic. -/
theorem calculateOverallScore_core :
    ∀ a c l u q : Fin 5,
      calculateOverallScore ⟨a.val, c.val, l.val, u.val, q.val⟩ ≤ 4 ∧
      ((6 * a.val + 5 * c.val + 4 * l.val + 3 * u.val + 2 * q.val) % 20 ≠ 10 →
        calculateOverallScore ⟨a.val, c.val, l.val, u.val, q.val⟩ =
          (6 * a.val + 5 * c.val + 4 * l.val + 3 * u.val + 2 * q.val + 10) / 20) ∧
      ((6 * a.val + 5 * c.val + 4 * l.val + 3 * u.val + 2 * q.val) % 20 = 10 →
        calculateOverallScore ⟨a.val, c.val, l.val, u.val, q.val⟩ =
          (6 * a.val + 5 * c.val + 4 * l.val + 3 * u.val + 2 * q.val + 10) / 20 ∨
        calculateOverallScore ⟨a.val, c.val, l.val, u.val, q.val⟩ + 1 =
          (6 * a.val + 5 * c.val + 4 * l.val + 3 * u.val + 2 * q.val + 10) / 20) := by
  decide

/-- Claim C5, amended.  For every combination of five integer sub-scores in
`[0,4]`, the computed overall score is an integer in `[0,4]`; whenever the
exact weighted sum is not an exact half-integer (equivalently
`(6a+5c+4l+3u+2q) % 20 ≠ 10`) it equals
`round(0.30a + 0.25c + 0.20l + 0.15u + 0.10q)` clamped to `[0,4]`, and at
half-integer ties the binary64 evaluation may fall just below the tie, so the
result is the spec value or one less. -/
theorem calculateOverallScore_amended :
    ∀ a c l u q : Fin 5,
      calculateOverallScore ⟨a.val, c.val, l.val, u.val, q.val⟩ ≤ 4 ∧
      ((6 * a.val + 5 * c.val + 4 * l.val + 3 * u.val + 2 * q.val) % 20 ≠ 10 →
        (calculateOverallScore ⟨a.val, c.val, l.val, u.val, q.val⟩ : ℤ) =
          specOverallScore a.val c.val l.val u.val q.val) ∧
      ((6 * a.val + 5 * c.val + 4 * l.val + 3 * u.val + 2 * q.val) % 20 = 10 →
        (calculateOverallScore ⟨a.val, c.val, l.val, u.val, q.val⟩ : ℤ) =
          specOverallScore a.val c.val l.val u.val q.val ∨
        (calculateOverallScore ⟨a.val, c.val, l.val, u.val, q.val⟩ : ℤ) + 1 =
          specOverallScore a.val c.val l.val u.val q.val) := by
  intro a c l u q
  obtain ⟨h1, h2, h3⟩ := calculateOverallScore_core a c l u q
  have hab := a.isLt
  have hcb := c.isLt
  have hlb := l.isLt
  have hub := u.isLt
  have hqb := q.isLt
  have hspec := specOverallScore_eq_nat a.val c.val l.val u.val q.val
    (by omega) (by omega) (by omega) (by omega) (by omega)
  refine ⟨h1, fun ht => ?_, fun ht => ?_⟩
  · rw [hspec, h2 ht]
  · rcases h3 ht with h | h
    · exact Or.inl (by rw [hspec, h])
    · exact Or.inr (by rw [hspec, ← h]; push_cast; ring)

/-- Claim C5, witness for the amended theorem: at sub-scores `(1,1,1,1,1)` the
weighted sum is exactly `1` (not a tie) and the computed score is `1`. -/
theorem calculateOverallScore_amended_witness :
    (6 * (1 : Fin 5).val + 5 * (1 : Fin 5).val + 4 * (1 : Fin 5).val +
      3 * (1 : Fin 5).val + 2 * (1 : Fin 5).val) % 20 ≠ 10 ∧
    (calculateOverallScore ⟨(1 : Fin 5).val, (1 : Fin 5).val, (1 : Fin 5).val,
      (1 : Fin 5).val, (1 : Fin 5).val⟩ : ℤ) = specOverallScore 1 1 1 1 1 :=
  ⟨by decide, (calculateOverallScore_amended 1 1 1 1 1).2.1 (by decide)⟩

/-! ## Data model (`models/index.ts`, `config/ai-products.ts`)

Identities (`uuid` strings in the source) are embedded as natural numbers;
`Date` timestamps carry no program logic and are omitted. -/

/-- Model of `TaskStatus` from `models/index.ts`. -/
inductive TaskStatus where
  | pending
  | running
  | completed
  | failed
  | cancelled
deriving DecidableEq, Repr

/-- Model of `SessionStatus` from `models/index.ts`. -/
inductive SessionStatus where
  | pending
  | running
  | completed
  | failed
deriving DecidableEq, Repr

/-- Model of `UserProfile` from `models/index.ts`; only the `name` field is read by the
orchestration code. -/
structure UserProfile where
  name : String
deriving DecidableEq, Repr

/-- Model of `ProgrammingLanguage` from `models/index.ts`; only the `name` field is
read by the orchestration code. -/
structure ProgrammingLanguage where
  name : String
deriving DecidableEq, Repr

/-- Model of `AIProduct` from `models/index.ts`, restricted to the fields the
orchestration code reads (`id` for lookups, `name` for progress labels); the
browser-automation selector configuration is irrelevant here. -/
structure AIProduct where
  id : String
  name : String
deriving DecidableEq, Repr

/-- The `AI_PRODUCTS` catalog from `config/ai-products.ts` (ids and names of
the five configured assistants). -/
def AI_PRODUCTS : List AIProduct :=
  [⟨"doubao", "豆包"⟩, ⟨"deepseek", "Deepseek"⟩, ⟨"kimi", "Kimi k2"⟩,
   ⟨"yuanbao", "元宝AI编程"⟩, ⟨"qwen", "千问"⟩]

/-- Model of `Question` from `models/index.ts`; the `context` snapshot (persona name,
language name, prior responses) is carried by the source but never read by the
scheduler, so it is omitted. -/
structure Question where
  id : Nat
  content : String
  type : String
  followUpLevel : Nat
  parentQuestionId : Option Nat
deriving DecidableEq, Repr

/-- Model of `AIResponse` from `models/index.ts`, restricted to the fields the
scheduler reads and writes. -/
structure AIResponse where
  id : Nat
  questionId : Nat
  content : String
deriving DecidableEq, Repr

/-- Model of `ScoringResult` from `models/index.ts`, restricted to the fields the
scheduler reads and writes. -/
structure ScoringResult where
  id : Nat
  responseId : Nat
  score : ℚ
deriving DecidableEq, Repr

/-- Model of `EvaluationSession` from `models/index.ts`, restricted to the fields the
orchestration code reads and writes. -/
structure EvaluationSession where
  id : Nat
  taskId : Nat
  productId : String
  questions : List Question
  responses : List AIResponse
  scores : List ScoringResult
  status : SessionStatus
deriving DecidableEq, Repr

/-- Model of `EvaluationTask` from `models/index.ts`, restricted to the fields the
scheduler reads.  `aiProducts` and `questionTypes` are `Option`s so that a
missing / non-array field (which the validation guards test with
`!x || !Array.isArray(x)`) is representable alongside an empty array;
`userProfile` and `programmingLanguage` are `Option`s for the same reason.
`questions` is the optional list of pre-supplied questions. -/
structure EvaluationTask where
  id : Nat
  aiProducts : Option (List AIProduct)
  questionTypes : Option (List String)
  userProfile : Option UserProfile
  programmingLanguage : Option ProgrammingLanguage
  questions : List Question
  maxFollowUps : Nat
deriving DecidableEq, Repr

/-! ## Question generator (`question-generator.service.ts`) -/

/-- JavaScript `String.prototype.includes`: `sub` occurs contiguously in
`s`. -/
def strIncludes (s sub : String) : Bool :=
  (List.range (s.toList.length + 1)).any fun i => sub.toList.isPrefixOf (s.toList.drop i)

/-- Model of `QuestionGeneratorService.inferQuestionType`: keyword heuristics on the
lower-cased follow-up content. -/
def inferQuestionType (questionContent : String) : String :=
  let content := questionContent.toLower
  if strIncludes content ("学习") || strIncludes content ("入门") || strIncludes content ("基础") then
    "learning"
  else if strIncludes content ("项目") || strIncludes content ("开发") || strIncludes content ("实现") then
    "project"
  else if strIncludes content ("错误") || strIncludes content ("调试") || strIncludes content ("问题") then
    "debugging"
  else if strIncludes content ("最佳") || strIncludes content ("规范") || strIncludes content ("建议") then
    "best_practices"
  else if strIncludes content ("性能") || strIncludes content ("优化") || strIncludes content ("效率") then
    "performance"
  else
    "learning"

/-- Behaviour of the external LLM collaborator during one `generateFollowUp`
call: `needsFollowUp` is the verdict of `analyzeNeedForFollowUp` (its
analysis-failure default is `true`, so a `Bool` covers it), `followUpContent`
is the trimmed completion text (`none` models an empty completion or a thrown
API error, both of which the source maps to `null`), and `newId` is the
generated uuid. -/
structure GenBehavior where
  needsFollowUp : Bool
  followUpContent : Option String
  newId : Nat
deriving DecidableEq, Repr

/-- Model of `QuestionGeneratorService.generateFollowUp`: returns `null` immediately
when `followUpCount ≥ 3` (before consulting any collaborator), then asks
whether a follow-up is needed, then builds the follow-up `Question` with
`followUpLevel = followUpCount + 1` (and no parent id — the scheduler stamps
that). -/
def generateFollowUp (originalQuestion aiResponse : String) (followUpCount : Nat)
    (beh : GenBehavior) : Option Question :=
  if followUpCount ≥ 3 then none
  else if !beh.needsFollowUp then none
  else
    match beh.followUpContent with
    | none => none
    | some content =>
        some { id := beh.newId, content := content, type := inferQuestionType content,
               followUpLevel := followUpCount + 1, parentQuestionId := none }

theorem generateFollowUp_eq_some {oq ar : String} {count : Nat} {beh : GenBehavior}
    {fq : Question} (h : generateFollowUp oq ar count beh = some fq) :
    count < 3 ∧ fq.followUpLevel = count + 1 := by
  unfold generateFollowUp at h
  split at h
  · exact absurd h (by simp)
  · split at h
    · exact absurd h (by simp)
    · split at h
      · exact absurd h (by simp)
      · refine ⟨by omega, ?_⟩
        cases h
        rfl

/-! ## Follow-up loop (`TaskSchedulerService.handleFollowUps`) -/

/-- Behaviour of the awaited collaborator calls during one iteration of the
follow-up loop: the generator behaviour for this `followUpCount`, the result
of `browserAutomation.interactWithAIProduct` (an `error` models a rejected
promise, caught by the loop's `catch`, which `break`s), and the result of
`scoringEngine.scoreResponse` (likewise). -/
structure FollowUpRound where
  gen : GenBehavior
  interact : Except String AIResponse
  score : Except String ScoringResult
deriving Repr

/-- The `while (followUpCount < task.maxFollowUps)` loop of
`TaskSchedulerService.handleFollowUps`, with `fuel = maxFollowUps −
followUpCount` counting the remaining iterations of the `while` condition.
Each iteration: generate a follow-up (a `none` breaks the loop), stamp
`parentQuestionId` with the original question's id and push the question,
look up the product (a missing product breaks), acquire and push the
follow-up response, score and push the result, then advance
`currentResponse` and `followUpCount`; a thrown error anywhere in the
iteration is caught and breaks the loop. -/
def followUpLoop (oracle : Nat → FollowUpRound) (originalQuestion : Question)
    (products : List AIProduct) :
    Nat → Nat → AIResponse → EvaluationSession → EvaluationSession
  | 0, _, _, session => session
  | fuel + 1, followUpCount, currentResponse, session =>
    match generateFollowUp originalQuestion.content currentResponse.content
        followUpCount (oracle followUpCount).gen with
    | none => session
    | some fq =>
      let followUpQuestion := { fq with parentQuestionId := some originalQuestion.id }
      let session1 := { session with questions := session.questions ++ [followUpQuestion] }
      match products.find? (fun p => p.id == session.productId) with
      | none => session1
      | some _ =>
        match (oracle followUpCount).interact with
        | .error _ => session1
        | .ok resp =>
          let followUpResponse := { resp with questionId := followUpQuestion.id }
          let session2 := { session1 with responses := session1.responses ++ [followUpResponse] }
          match (oracle followUpCount).score with
          | .error _ => session2
          | .ok sc =>
            let followUpScore := { sc with responseId := followUpResponse.id }
            let session3 := { session2 with scores := session2.scores ++ [followUpScore] }
            followUpLoop oracle originalQuestion products fuel (followUpCount + 1)
              followUpResponse session3

/-- Model of `TaskSchedulerService.handleFollowUps`: run the follow-up loop starting
from `followUpCount = 0` and the original response, against the `AI_PRODUCTS`
catalog. -/
def handleFollowUps (session : EvaluationSession) (originalQuestion : Question)
    (originalResponse : AIResponse) (task : EvaluationTask)
    (oracle : Nat → FollowUpRound) : EvaluationSession :=
  followUpLoop oracle originalQuestion AI_PRODUCTS task.maxFollowUps 0
    originalResponse session

/-- Core invariant of the follow-up loop: the questions list only grows by a
block `fs` of follow-ups, with `|fs| ≤ fuel`, `|fs| ≤ 3 - followUpCount`
(because the generator refuses once the count reaches 3), every element of
`fs` stamped with the original question's id, and the `i`-th element of `fs`
carrying `followUpLevel = followUpCount + i + 1`. -/
theorem followUpLoop_spec (oracle : Nat → FollowUpRound) (origQ : Question)
    (products : List AIProduct) :
    ∀ (fuel count : Nat) (cur : AIResponse) (s : EvaluationSession),
      ∃ fs : List Question,
        (followUpLoop oracle origQ products fuel count cur s).questions =
          s.questions ++ fs ∧
        fs.length ≤ fuel ∧
        fs.length ≤ 3 - count ∧
        fs.map (fun q => q.parentQuestionId) =
          List.replicate fs.length (some origQ.id) ∧
        fs.map (fun q => q.followUpLevel) =
          (List.range fs.length).map (fun i => count + i + 1) := by
  intro fuel
  induction fuel with
  | zero =>
      intro count cur s
      exact ⟨[], by simp [followUpLoop]⟩
  | succ fuel ih =>
      intro count cur s
      rw [followUpLoop]
      cases hgen : generateFollowUp origQ.content cur.content count (oracle count).gen with
      | none => exact ⟨[], by simp⟩
      | some fq =>
        obtain ⟨hcount, hlevel⟩ := generateFollowUp_eq_some hgen
        have hone : ∀ s1 : EvaluationSession,
            s1.questions = s.questions ++ [{ fq with parentQuestionId := some origQ.id }] →
            ∃ fs : List Question,
              s1.questions = s.questions ++ fs ∧
              fs.length ≤ fuel + 1 ∧
              fs.length ≤ 3 - count ∧
              fs.map (fun q => q.parentQuestionId) =
                List.replicate fs.length (some origQ.id) ∧
              fs.map (fun q => q.followUpLevel) =
                (List.range fs.length).map (fun i => count + i + 1) := by
          intro s1 hq
          refine ⟨[{ fq with parentQuestionId := some origQ.id }], hq, by simp, ?_, by simp, ?_⟩
          · simpa using by omega
          · simp [hlevel, List.range_succ]
        cases hfind : products.find? (fun p => p.id == s.productId) with
        | none => exact hone _ rfl
        | some _ =>
          cases hint : (oracle count).interact with
          | error e => exact hone _ rfl
          | ok resp =>
            cases hsc : (oracle count).score with
            | error e => exact hone _ rfl
            | ok sc =>
              obtain ⟨fs', h1, h2, h3, h4, h5⟩ := ih (count + 1) _ _
              refine ⟨{ fq with parentQuestionId := some origQ.id } :: fs', ?_, ?_, ?_, ?_, ?_⟩
              · rw [h1]
                simp
              · simpa using h2
              · simp only [List.length_cons]
                omega
              · simp [h4, List.replicate_succ]
              · simp only [List.map_cons, h5, List.length_cons, List.range_succ_eq_map,
                  List.map_map, List.cons.injEq]
                refine ⟨by simpa using hlevel, ?_⟩
                apply List.map_congr_left
                intro i _
                simp only [Function.comp_apply]
                omega

/-- Claim C6.  For every original question processed by the follow-up loop, at
most `task.maxFollowUps` follow-up questions are created and appended to the
session, each stamped with `parentQuestionId` equal to the original
question's id, and the `i`-th created follow-up (counting from `0`) carries
`followUpLevel = i + 1`, one more than the loop counter at its creation. -/
theorem handleFollowUps_bounded_and_stamped (session : EvaluationSession)
    (origQ : Question) (origResp : AIResponse) (task : EvaluationTask)
    (oracle : Nat → FollowUpRound) :
    ∃ fs : List Question,
      (handleFollowUps session origQ origResp task oracle).questions =
        session.questions ++ fs ∧
      fs.length ≤ task.maxFollowUps ∧
      fs.map (fun q => q.parentQuestionId) =
        List.replicate fs.length (some origQ.id) ∧
      fs.map (fun q => q.followUpLevel) =
        (List.range fs.length).map (fun i => i + 1) := by
  obtain ⟨fs, h1, h2, _h3, h4, h5⟩ :=
    followUpLoop_spec oracle origQ AI_PRODUCTS task.maxFollowUps 0 origResp session
  exact ⟨fs, h1, h2, h4, by simpa using h5⟩

/-- Claim C10.  The generator's hard cap: `generateFollowUp` with a follow-up
count of at least `3` returns `null` whatever the collaborator behaviour is
(the guard runs before any collaborator is consulted), and consequently the
follow-up loop never appends more than `min task.maxFollowUps 3` follow-ups
to a session, even when `task.maxFollowUps` exceeds `3`. -/
theorem generateFollowUp_cap_three :
    (∀ (oq ar : String) (extra : Nat) (beh : GenBehavior),
        generateFollowUp oq ar (3 + extra) beh = none) ∧
    (∀ (session : EvaluationSession) (origQ : Question) (origResp : AIResponse)
        (task : EvaluationTask) (oracle : Nat → FollowUpRound),
      ∃ fs : List Question,
        (handleFollowUps session origQ origResp task oracle).questions =
          session.questions ++ fs ∧
        fs.length ≤ min task.maxFollowUps 3) := by
  constructor
  · intro oq ar extra beh
    unfold generateFollowUp
    rw [if_pos (by omega)]
  · intro session origQ origResp task oracle
    obtain ⟨fs, h1, h2, h3, _h4, _h5⟩ :=
      followUpLoop_spec oracle origQ AI_PRODUCTS task.maxFollowUps 0 origResp session
    exact ⟨fs, h1, le_min h2 (by simpa using h3)⟩

/-! ## Association-list model of the JavaScript `Map`s

`MemoryStorageService.tasks` (restricted to the `status` field, the only one
the scheduler writes) and `TaskSchedulerService.runningTasks` are JavaScript
`Map`s; they are embedded as association lists in insertion order:
`set` replaces an existing binding in place or appends a new one, `delete`
removes the binding. -/

/-- Model of `Map.get`. -/
def mapLookup {α : Type} (l : List (Nat × α)) (k : Nat) : Option α :=
  match l.find? (fun p => p.1 == k) with
  | some p => some p.2
  | none => none

/-- Model of `Map.set`: replace in place if the key is bound, else append. -/
def mapSet {α : Type} (l : List (Nat × α)) (k : Nat) (v : α) : List (Nat × α) :=
  if (l.find? (fun p => p.1 == k)).isSome then
    l.map (fun p => if p.1 == k then (k, v) else p)
  else l ++ [(k, v)]

/-- Model of `Map.delete`. -/
def mapDelete {α : Type} (l : List (Nat × α)) (k : Nat) : List (Nat × α) :=
  l.filter (fun p => p.1 != k)

theorem mapLookup_set_self {α : Type} (l : List (Nat × α)) (k : Nat) (v : α) :
    mapLookup (mapSet l k v) k = some v := by
  unfold mapSet
  split
  case isTrue h =>
    induction l with
    | nil => simp at h
    | cons hd tl ih =>
      by_cases hk : hd.1 = k
      · simp [mapLookup, List.find?, hk]
      · have hk' : (hd.1 == k) = false := by simp [hk]
        have h' : (tl.find? (fun p => p.1 == k)).isSome := by
          simpa [List.find?, hk'] using h
        simpa [mapLookup, List.find?, hk'] using ih h'
  case isFalse h =>
    induction l with
    | nil => simp [mapLookup, List.find?]
    | cons hd tl ih =>
      by_cases hk : hd.1 = k
      · exact absurd (by simp [List.find?, hk]) h
      · have hk' : (hd.1 == k) = false := by simp [hk]
        have h' : ¬ (tl.find? (fun p => p.1 == k)).isSome := by
          simpa [List.find?, hk'] using h
        simpa [mapLookup, List.find?, hk'] using ih h'

theorem mapLookup_delete_self {α : Type} (l : List (Nat × α)) (k : Nat) :
    mapLookup (mapDelete l k) k = none := by
  unfold mapDelete
  induction l with
  | nil => simp [mapLookup, List.find?]
  | cons hd tl ih =>
    by_cases hk : hd.1 = k
    · simpa [List.filter, hk] using ih
    · have hk' : (hd.1 == k) = false := by simp [hk]
      simpa [List.filter, mapLookup, List.find?, hk', bne] using ih

theorem mapDelete_of_lookup_none {α : Type} (l : List (Nat × α)) (k : Nat)
    (h : mapLookup l k = none) : mapDelete l k = l := by
  unfold mapDelete
  induction l with
  | nil => simp
  | cons hd tl ih =>
    by_cases hk : hd.1 = k
    · rw [mapLookup, List.find?] at h
      simp [hk] at h
    · have hk' : (hd.1 == k) = false := by simp [hk]
      have h' : mapLookup tl k = none := by
        rw [mapLookup, List.find?] at h
        rw [hk'] at h
        exact h
      have hbne : (hd.1 != k) = true := by simp [bne, hk']
      simp only [List.filter_cons, hbne, if_true, ih h']

theorem length_mapDelete_lt {α : Type} (l : List (Nat × α)) (k : Nat)
    (h : (mapLookup l k).isSome) : (mapDelete l k).length < l.length := by
  unfold mapDelete
  induction l with
  | nil => simp [mapLookup, List.find?] at h
  | cons hd tl ih =>
    by_cases hk : hd.1 = k
    · have hle : (tl.filter (fun p => p.1 != k)).length ≤ tl.length :=
        List.length_filter_le _ _
      have hbne : (hd.1 != k) = false := by simp [bne, hk]
      simp only [List.filter_cons, hbne, Bool.false_eq_true, if_false, List.length_cons]
      omega
    · have hk' : (hd.1 == k) = false := by simp [hk]
      have h' : (mapLookup tl k).isSome := by
        rw [mapLookup, List.find?] at h
        rw [hk'] at h
        exact h
      have hlt := ih h'
      have hbne : (hd.1 != k) = true := by simp [bne, hk']
      simp only [List.filter_cons, hbne, if_true, List.length_cons]
      omega

/-! ## Task scheduler engine (`task-scheduler.service.ts`)

`executeEvaluationTask` is embedded as a function of the task, the behaviour
of the awaited `executeEvaluationFlow` call, the measured duration, and the
engine state (the persisted task store and the `runningTasks` map).  Besides
the final state it returns the list of side-effect events it performed, in
order, so that "exactly once" and "before removal" properties can be
stated. -/

/-- A JavaScript number as stored in `TaskProgress.progress`: a finite
integer produced by `Math.round` (or the initial literal `0`), `Infinity`
(division of a positive number by zero), or `NaN`. -/
inductive ProgressVal where
  | num (n : ℤ)
  | inf
  | nan
deriving DecidableEq, Repr

/-- The `finalResult` terminal snapshot stored in `TaskProgress`. -/
structure FinalResult where
  status : TaskStatus
  totalQuestions : Nat
  totalResponses : Nat
  averageScore : ℚ
  duration : Nat
  error : Option String
deriving DecidableEq, Repr

/-- Model of `TaskProgress` from `task-scheduler.service.ts` (wall-clock fields
omitted). -/
structure TaskProgress where
  taskId : Nat
  currentStep : String
  completedSteps : Nat
  totalSteps : Nat
  progress : ProgressVal
  isCompleted : Bool
  finalResult : Option FinalResult
deriving DecidableEq, Repr

/-- The engine's shared mutable state: the persisted task store of
`MemoryStorageService` restricted to each task's `status` field (the only
field the scheduler updates), and the `runningTasks` map. -/
structure EngineState where
  stored : List (Nat × TaskStatus)
  runningTasks : List (Nat × TaskProgress)
deriving DecidableEq, Repr

/-- Side effects performed by the scheduler, recorded in order:
a persisted-status update, the creation of a Progress Tracker entry, a
terminal snapshot written into an entry (setting `isCompleted := true` and
`finalResult`), and the removal of an entry. -/
inductive Event where
  | statusUpdate (taskId : Nat) (status : TaskStatus)
  | trackerCreate (taskId : Nat)
  | terminalWrite (taskId : Nat) (fr : FinalResult)
  | trackerDelete (taskId : Nat)
deriving DecidableEq, Repr

/-- Model of `TaskResult` from `task-scheduler.service.ts`. -/
structure TaskResult where
  taskId : Nat
  status : TaskStatus
  sessions : List EvaluationSession
  totalQuestions : Nat
  totalResponses : Nat
  averageScore : ℚ
  duration : Nat
  error : Option String
deriving DecidableEq, Repr

/-- The aggregate of `calculateTaskStatistics`. -/
structure TaskStats where
  totalQuestions : Nat
  totalResponses : Nat
  averageScore : ℚ
deriving DecidableEq, Repr

/-- Model of `Math.round(x * 100) / 100` (two-decimal rounding) in exact rational
arithmetic. -/
def jsRound2 (x : ℚ) : ℚ := mkRat (jsMathRound (x * 100)) 100

/-- Model of `TaskSchedulerService.calculateTaskStatistics`: total questions, total
responses, and the mean score rounded to two decimals (`0` when no scores
exist). -/
def calculateTaskStatistics (sessions : List EvaluationSession) : TaskStats :=
  let totalQuestions := (sessions.map (fun s => s.questions.length)).sum
  let totalResponses := (sessions.map (fun s => s.responses.length)).sum
  let totalScore : ℚ := (sessions.map (fun s => (s.scores.map (fun sc => sc.score)).sum)).sum
  let scoreCount := (sessions.map (fun s => s.scores.length)).sum
  { totalQuestions := totalQuestions
    totalResponses := totalResponses
    averageScore := if scoreCount > 0 then jsRound2 (totalScore / (scoreCount : ℚ)) else 0 }

/-- The parameter-validation guards at the top of `executeEvaluationTask`
(lines 97–108): a missing / non-array / empty `aiProducts`, then
`questionTypes`, then a missing `userProfile` or `programmingLanguage`, each
with the thrown error message. -/
def validationError (task : EvaluationTask) : Option String :=
  if (task.aiProducts.getD []).isEmpty then
    some ("Task must have valid aiProducts array with at least one product")
  else if (task.questionTypes.getD []).isEmpty then
    some ("Task must have valid questionTypes array with at least one type")
  else if task.userProfile.isNone || task.programmingLanguage.isNone then
    some ("Task must have valid userProfile and programmingLanguage")
  else none

/-- Model of `TaskSchedulerService.calculateTotalSteps`: `0` for invalid lists,
otherwise `|aiProducts| * |questionTypes| * (1 + maxFollowUps + 1)`. -/
def calculateTotalSteps (task : EvaluationTask) : Nat :=
  if (task.aiProducts.getD []).isEmpty then 0
  else if (task.questionTypes.getD []).isEmpty then 0
  else (task.aiProducts.getD []).length * (task.questionTypes.getD []).length *
    (1 + task.maxFollowUps + 1)

/-- The default `maxConcurrentTasks` of `TaskSchedulerService`. -/
def maxConcurrentTasks : Nat := 3

/-- Model of `TaskSchedulerService.updateTaskStatus` →
`MemoryStorageService.updateTask(taskId, { status })`: merge the new status
into the stored task if it exists, otherwise do nothing. -/
def updateTaskStatus (taskId : Nat) (status : TaskStatus) (st : EngineState) :
    EngineState × List Event :=
  match mapLookup st.stored taskId with
  | none => (st, [])
  | some _ =>
      ({ st with stored := mapSet st.stored taskId status },
       [Event.statusUpdate taskId status])

/-- The terminal-snapshot pattern shared by the success path (lines 168–181),
the failure path (lines 199–213) and `cancelTask` (lines 750–763): look up
the task's progress entry; if present, set `isCompleted := true` and store
`finalResult`. -/
def finalizeTracker (taskId : Nat) (fr : FinalResult) (st : EngineState) :
    EngineState × List Event :=
  match mapLookup st.runningTasks taskId with
  | none => (st, [])
  | some progress =>
      let finalized := { progress with isCompleted := true, finalResult := some fr }
      ({ st with runningTasks := mapSet st.runningTasks taskId finalized },
       [Event.terminalWrite taskId fr])

/-- The `FinalResult` written by the `finally`-block guard. -/
def interruptedResult : FinalResult :=
  { status := .failed, totalQuestions := 0, totalResponses := 0,
    averageScore := 0, duration := 0,
    error := some ("Task execution was interrupted") }

/-- The `finally` block of `executeEvaluationTask` (lines 225–243): if the
task still has a progress entry that was never finalized, write a FAILED
"Task execution was interrupted" snapshot as a last resort; then remove the
entry from `runningTasks`. -/
def finallyBlock (taskId : Nat) (st : EngineState) : EngineState × List Event :=
  let (st1, evs) :=
    match mapLookup st.runningTasks taskId with
    | some progress =>
        if progress.isCompleted then (st, ([] : List Event))
        else
          let finalized :=
            { progress with isCompleted := true, finalResult := some interruptedResult }
          ({ st with runningTasks := mapSet st.runningTasks taskId finalized },
           [Event.terminalWrite taskId interruptedResult])
    | none => (st, [])
  ({ st1 with runningTasks := mapDelete st1.runningTasks taskId },
   evs ++ [Event.trackerDelete taskId])

/-- Largest exponent `e` (searched downward from `64` with the given fuel,
so covering `e ∈ [64 - fuel + 1, 64]`) with `2 ^ e ≤ n / d`, using only
natural-number comparisons: `2 ^ e ≤ n / d ↔ d · 2 ^ e⁺ ≤ n · 2 ^ (-e)⁺`. -/
def findExpAux (n d : Nat) : Nat → ℤ → ℤ
  | 0, e => e
  | fuel + 1, e =>
      if d * 2 ^ e.toNat ≤ n * 2 ^ (-e).toNat then e
      else findExpAux n d fuel (e - 1)

/-- The IEEE-754 binary64 value of the quotient `n / d` (for `n, d ≥ 1`) as
an exact rational: round to nearest, ties to even, 53 significant bits.
With the exponent `e` of the quotient, the significand is
`N / D = (n / d) · 2 ^ (52 - e) ∈ [2^52, 2^53)`; the integer quotient is
rounded by comparing twice the remainder with the divisor.  The exponent
search covers quotients in `[2^(-64), 2^64]`, which contains every value
arising in the progress computation for counters a JavaScript number can
hold exactly (integers below `2^53`). -/
def roundB64 (n d : Nat) : ℚ :=
  if n = 0 ∨ d = 0 then 0
  else
    let e := findExpAux n d 129 64
    let N := n * 2 ^ (52 - e).toNat
    let D := d * 2 ^ (e - 52).toNat
    let q := N / D
    let r := N % D
    let q' := if 2 * r > D ∨ (2 * r = D ∧ q % 2 = 1) then q + 1 else q
    mkRat (q' * 2 ^ (e - 52).toNat) (2 ^ (52 - e).toNat)

/-- The binary64 evaluation of `(c / t) * 100` for `t ≠ 0`: the correctly
rounded binary64 quotient `c / t`, then the correctly rounded binary64
product of that value with the exact constant `100`. -/
def fpRatio100 (c t : Nat) : ℚ :=
  let y := roundB64 c t
  roundB64 (y.num.toNat * 100) y.den

/-- Model of `Math.round((completedSteps / totalSteps) * 100)` as JavaScript
evaluates it: division of a positive number by zero yields `Infinity`
(`0 / 0` yields `NaN`) and `Math.round` passes both through; for a nonzero
denominator the quotient and the product with `100` are each rounded to
binary64 (`fpRatio100`) before `Math.round` is applied. -/
def progressPercent (completed total : Nat) : ProgressVal :=
  if total = 0 then (if completed = 0 then .nan else .inf)
  else .num (jsMathRound (fpRatio100 completed total))

/-- Sanity anchor for the binary64 model, at the point where it visibly
differs from exact-rational arithmetic: for `completedSteps = 23`,
`totalSteps = 40` the code computes `(23/40)*100 = 57.49999999999999` in
binary64 and `Math.round` gives `57`, while rounding the exact rational
`57.5` would give `58`. -/
theorem progressPercent_23_40 :
    progressPercent 23 40 = ProgressVal.num 57 ∧
    jsMathRound (mkRat (100 * 23) 40) = 58 := by decide

/-- Model of `TaskSchedulerService.updateProgress` (lines 655–663): if the task has a
progress entry, set the step label, increment `completedSteps` and recompute
the percentage. -/
def updateProgress (taskId : Nat) (currentStep : String) (st : EngineState) :
    EngineState :=
  match mapLookup st.runningTasks taskId with
  | none => st
  | some progress =>
      let advanced :=
        { progress with
          currentStep := currentStep,
          completedSteps := progress.completedSteps + 1,
          progress := progressPercent (progress.completedSteps + 1) progress.totalSteps }
      { st with runningTasks := mapSet st.runningTasks taskId advanced }

/-- The admission prefix of `executeEvaluationTask` (lines 115–138), reached
after validation and the capacity check: persist status RUNNING and create
the Progress Tracker entry. -/
def admitTask (task : EvaluationTask) (st : EngineState) : EngineState × List Event :=
  let (st1, e1) := updateTaskStatus task.id .running st
  let progress : TaskProgress :=
    { taskId := task.id, currentStep := "初始化任务", completedSteps := 0,
      totalSteps := calculateTotalSteps task, progress := .num 0,
      isCompleted := false, finalResult := none }
  ({ st1 with runningTasks := mapSet st1.runningTasks task.id progress },
   e1 ++ [Event.trackerCreate task.id])

/-- The COMPLETED terminal snapshot written by the success path. -/
def completedResult (stats : TaskStats) (duration : Nat) : FinalResult :=
  { status := .completed, totalQuestions := stats.totalQuestions,
    totalResponses := stats.totalResponses, averageScore := stats.averageScore,
    duration := duration, error := none }

/-- The FAILED terminal snapshot written by the `catch` block: zeroed
statistics and the error message. -/
def failedResult (errMsg : String) (duration : Nat) : FinalResult :=
  { status := .failed, totalQuestions := 0, totalResponses := 0,
    averageScore := 0, duration := duration, error := some errMsg }

/-- The success continuation of `executeEvaluationTask` (lines 149–190):
aggregate statistics, persist status COMPLETED, build the result, and write
the COMPLETED terminal snapshot into the tracker entry. -/
def successPath (task : EvaluationTask) (sessions : List EvaluationSession)
    (duration : Nat) (st : EngineState) : TaskResult × EngineState × List Event :=
  let stats := calculateTaskStatistics sessions
  let (st1, e1) := updateTaskStatus task.id .completed st
  let result : TaskResult :=
    { taskId := task.id, status := .completed, sessions := sessions,
      totalQuestions := stats.totalQuestions, totalResponses := stats.totalResponses,
      averageScore := stats.averageScore, duration := duration, error := none }
  let (st2, e2) := finalizeTracker task.id (completedResult stats duration) st1
  (result, st2, e1 ++ e2)

/-- The `catch` block of `executeEvaluationTask` (lines 191–224): persist
status FAILED, write the FAILED terminal snapshot (zeroed statistics and the
error message) into the tracker entry if one exists, and return the FAILED
result. -/
def catchPath (task : EvaluationTask) (errMsg : String) (duration : Nat)
    (st : EngineState) : TaskResult × EngineState × List Event :=
  let (st1, e1) := updateTaskStatus task.id .failed st
  let (st2, e2) := finalizeTracker task.id (failedResult errMsg duration) st1
  let result : TaskResult :=
    { taskId := task.id, status := .failed, sessions := [],
      totalQuestions := 0, totalResponses := 0, averageScore := 0,
      duration := duration, error := some errMsg }
  (result, st2, e1 ++ e2)

/-- Behaviour of the awaited `executeEvaluationFlow` call inside
`executeEvaluationTask`: it returns a session list, or throws (the exception
is caught by the `catch` block), or — the defensive case the `finally` guard
exists for — the evaluation is interrupted so that neither the success path
nor the `catch` block runs and only the `finally` block executes.  The
flow's own `updateProgress` calls only advance step counters and never touch
`isCompleted` or `finalResult`, so they are irrelevant to the terminal
snapshot and omitted here. -/
inductive FlowOutcome where
  | ok (sessions : List EvaluationSession)
  | err (msg : String)
  | interrupted
deriving Repr

/-- Model of `TaskSchedulerService.executeEvaluationTask`: validation, capacity check,
admission, delegation to the flow, finalization on the success / failure
path, and the `finally` block.  A validation or capacity throw is caught by
the same `catch` block (with no tracker entry to finalize) and then runs the
`finally` block as well.  The returned result is `none` only in the
interrupted case, where the underlying promise never settles. -/
def executeEvaluationTask (task : EvaluationTask) (outcome : FlowOutcome)
    (duration : Nat) (st : EngineState) :
    Option TaskResult × EngineState × List Event :=
  match validationError task with
  | some msg =>
      let (r, st1, e1) := catchPath task msg duration st
      let (st2, e2) := finallyBlock task.id st1
      (some r, st2, e1 ++ e2)
  | none =>
    if st.runningTasks.length ≥ maxConcurrentTasks then
      let (r, st1, e1) := catchPath task ("Maximum concurrent tasks limit reached") duration st
      let (st2, e2) := finallyBlock task.id st1
      (some r, st2, e1 ++ e2)
    else
      let (st1, e0) := admitTask task st
      match outcome with
      | .ok sessions =>
          let (r, st2, e1) := successPath task sessions duration st1
          let (st3, e2) := finallyBlock task.id st2
          (some r, st3, e0 ++ e1 ++ e2)
      | .err msg =>
          let (r, st2, e1) := catchPath task msg duration st1
          let (st3, e2) := finallyBlock task.id st2
          (some r, st3, e0 ++ e1 ++ e2)
      | .interrupted =>
          let (st3, e2) := finallyBlock task.id st1
          (none, st3, e0 ++ e2)

/-- The zeroed `FinalResult` written by `cancelTask`. -/
def cancelledResult : FinalResult :=
  { status := .cancelled, totalQuestions := 0, totalResponses := 0,
    averageScore := 0, duration := 0, error := none }

/-- Model of `TaskSchedulerService.cancelTask` (lines 746–772): persist status
CANCELLED, write the zeroed CANCELLED terminal snapshot into the tracker
entry if one exists, and remove the entry from `runningTasks`. -/
def cancelTask (taskId : Nat) (st : EngineState) : EngineState × List Event :=
  let (st1, e1) := updateTaskStatus taskId .cancelled st
  let (st2, e2) := finalizeTracker taskId cancelledResult st1
  ({ st2 with runningTasks := mapDelete st2.runningTasks taskId },
   e1 ++ e2 ++ [Event.trackerDelete taskId])

theorem mapLookup_cons {α : Type} (x : Nat × α) (tl : List (Nat × α)) (k : Nat) :
    mapLookup (x :: tl) k = if x.1 = k then some x.2 else mapLookup tl k := by
  by_cases h : x.1 = k
  · rw [if_pos h]
    unfold mapLookup
    rw [List.find?_cons_of_pos _ (by simp [h])]
  · rw [if_neg h]
    unfold mapLookup
    rw [List.find?_cons_of_neg _ (by simp [h])]

theorem mapLookup_map_replace_ne {α : Type} (l : List (Nat × α)) (k : Nat)
    (v : α) (a : Nat) (hne : a ≠ k) :
    mapLookup (l.map (fun p => if p.1 == k then (k, v) else p)) a = mapLookup l a := by
  induction l with
  | nil => rfl
  | cons hd tl ih =>
    simp only [List.map_cons]
    by_cases hk : hd.1 = k
    · rw [if_pos (by simp [hk]), mapLookup_cons, mapLookup_cons,
        if_neg (show ¬((k, v) : Nat × α).1 = a from Ne.symm hne),
        if_neg (show ¬hd.1 = a by rw [hk]; exact Ne.symm hne)]
      exact ih
    · rw [if_neg (by simp [hk]), mapLookup_cons, mapLookup_cons]
      by_cases hha : hd.1 = a
      · rw [if_pos hha, if_pos hha]
      · rw [if_neg hha, if_neg hha]
        exact ih

theorem mapLookup_append_single_ne {α : Type} (l : List (Nat × α)) (k : Nat)
    (v : α) (a : Nat) (hne : a ≠ k) :
    mapLookup (l ++ [(k, v)]) a = mapLookup l a := by
  induction l with
  | nil =>
    rw [List.nil_append, mapLookup_cons,
      if_neg (show ¬((k, v) : Nat × α).1 = a from Ne.symm hne)]
  | cons hd tl ih =>
    rw [List.cons_append, mapLookup_cons, mapLookup_cons]
    by_cases hha : hd.1 = a
    · rw [if_pos hha, if_pos hha]
    · rw [if_neg hha, if_neg hha]
      exact ih

theorem mapLookup_set_ne {α : Type} (l : List (Nat × α)) (k : Nat) (v : α)
    (a : Nat) (hne : a ≠ k) : mapLookup (mapSet l k v) a = mapLookup l a := by
  unfold mapSet
  split
  · exact mapLookup_map_replace_ne l k v a hne
  · exact mapLookup_append_single_ne l k v a hne

theorem mapLookup_delete_ne {α : Type} (l : List (Nat × α)) (k a : Nat)
    (hne : a ≠ k) : mapLookup (mapDelete l k) a = mapLookup l a := by
  unfold mapDelete
  induction l with
  | nil => rfl
  | cons hd tl ih =>
    rw [List.filter_cons]
    by_cases hk : hd.1 = k
    · rw [if_neg (by simp [bne, hk]), mapLookup_cons,
        if_neg (by rw [hk]; exact Ne.symm hne)]
      exact ih
    · rw [if_pos (by simp [bne, hk]), mapLookup_cons, mapLookup_cons]
      by_cases hha : hd.1 = a
      · rw [if_pos hha, if_pos hha]
      · rw [if_neg hha, if_neg hha]
        exact ih

theorem length_mapSet_of_isSome {α : Type} (l : List (Nat × α)) (k : Nat) (v : α)
    (h : (mapLookup l k).isSome) : (mapSet l k v).length = l.length := by
  unfold mapSet
  rw [if_pos]
  · exact List.length_map _ _
  · unfold mapLookup at h
    cases hf : l.find? (fun p => p.1 == k) with
    | none => rw [hf] at h; simp at h
    | some _ => simp [hf]

/-! ### Theorems for claim C8 -/

/-- Claim C8.  For every valid task (both lists present and non-empty), the
Progress Tracker entry created at admission records a total step count of
`|aiProducts| × |questionTypes| × (1 + maxFollowUps + 1)`, i.e.
`|aiProducts| × |questionTypes| × (maxFollowUps + 2)`, and starts with
`isCompleted = false` and zero completed steps. -/
theorem admitTask_totalSteps (task : EvaluationTask) (st : EngineState)
    (ps : List AIProduct) (ts : List String)
    (hp : task.aiProducts = some ps) (ht : task.questionTypes = some ts)
    (hps : ps ≠ []) (hts : ts ≠ []) :
    ∃ p : TaskProgress,
      mapLookup (admitTask task st).1.runningTasks task.id = some p ∧
      p.totalSteps = ps.length * ts.length * (1 + task.maxFollowUps + 1) ∧
      p.totalSteps = ps.length * ts.length * (task.maxFollowUps + 2) ∧
      p.isCompleted = false ∧
      p.completedSteps = 0 := by
  have hsteps : calculateTotalSteps task =
      ps.length * ts.length * (1 + task.maxFollowUps + 1) := by
    unfold calculateTotalSteps
    rw [hp, ht]
    simp [List.isEmpty_iff, hps, hts]
  unfold admitTask updateTaskStatus
  cases hstored : mapLookup st.stored task.id with
  | none =>
      refine ⟨_, mapLookup_set_self _ _ _, ?_, ?_, rfl, rfl⟩
      · simpa using hsteps
      · simp only [hsteps]
        ring
  | some s =>
      refine ⟨_, mapLookup_set_self _ _ _, ?_, ?_, rfl, rfl⟩
      · simpa using hsteps
      · simp only [hsteps]
        ring

/-- Claim C8, witness.  A concrete valid task with one assistant, one category
and `maxFollowUps = 2`: the recorded total step count is `1 × 1 × 4 = 4`. -/
theorem admitTask_totalSteps_witness :
    ∃ p : TaskProgress,
      mapLookup (admitTask
        { id := 1, aiProducts := some [⟨"doubao", "豆包"⟩],
          questionTypes := some ["编程问题"],
          userProfile := some ⟨"新手"⟩, programmingLanguage := some ⟨"Python"⟩,
          questions := [], maxFollowUps := 2 }
        { stored := [(1, TaskStatus.pending)], runningTasks := [] }).1.runningTasks 1 =
        some p ∧
      p.totalSteps = 1 * 1 * (1 + 2 + 1) ∧
      p.totalSteps = 1 * 1 * (2 + 2) ∧
      p.isCompleted = false ∧
      p.completedSteps = 0 :=
  admitTask_totalSteps
    { id := 1, aiProducts := some [⟨"doubao", "豆包"⟩],
      questionTypes := some ["编程问题"],
      userProfile := some ⟨"新手"⟩, programmingLanguage := some ⟨"Python"⟩,
      questions := [], maxFollowUps := 2 }
    { stored := [(1, TaskStatus.pending)], runningTasks := [] }
    [⟨"doubao", "豆包"⟩] ["编程问题"] rfl rfl (by simp) (by simp)

/-! ### Theorems for claim C9 -/

/-- A concrete Progress Tracker entry whose `totalSteps` is `0` (as
`calculateTotalSteps` produces for a task with invalid lists). -/
def zeroStepsProgress : TaskProgress :=
  { taskId := 7, currentStep := "初始化任务", completedSteps := 0, totalSteps := 0,
    progress := ProgressVal.num 0, isCompleted := false, finalResult := none }

/-- Claim C9, counterexample.  The claim states that `updateProgress` is safe
when `totalSteps = 0`, reporting progress `0` with no division by zero.  On a
concrete entry with `totalSteps = 0`, the code computes
`Math.round((1 / 0) * 100)`, i.e. `Infinity`, not `0`. -/
theorem updateProgress_zero_total_gives_infinity :
    mapLookup (updateProgress 7 "正在评测 豆包"
        { stored := [], runningTasks := [(7, zeroStepsProgress)] }).runningTasks 7 =
      some { zeroStepsProgress with currentStep := "正在评测 豆包", completedSteps := 1, progress := ProgressVal.inf } ∧
    ProgressVal.inf ≠ ProgressVal.num 0 := by decide

/-- Claim C9, amended.  `updateProgress` increments `completedSteps` and
recomputes the percentage as `Math.round((completed / total) * 100)` in
binary64 floating point; when `totalSteps = 0` the division of the
(positive) incremented counter by zero yields `Infinity`, which `Math.round`
passes through — the progress value becomes `Infinity`, not `0`.  When
`totalSteps ≠ 0` the result is `Math.round` of the binary64 evaluation of
`(completed / total) * 100` — which at exact half-integer ties can be one
less than exact-rational rounding, see `progressPercent_23_40`. -/
theorem updateProgress_amended (taskId : Nat) (step : String) (st : EngineState)
    (p : TaskProgress) (h : mapLookup st.runningTasks taskId = some p) :
    ∃ p' : TaskProgress,
      mapLookup (updateProgress taskId step st).runningTasks taskId = some p' ∧
      p'.completedSteps = p.completedSteps + 1 ∧
      p'.currentStep = step ∧
      (p.totalSteps = 0 → p'.progress = ProgressVal.inf) ∧
      (p.totalSteps ≠ 0 → p'.progress =
        ProgressVal.num (jsMathRound (fpRatio100 (p.completedSteps + 1) p.totalSteps))) := by
  unfold updateProgress
  rw [h]
  refine ⟨_, mapLookup_set_self _ _ _, rfl, rfl, ?_, ?_⟩
  · intro h0
    simp [progressPercent, h0]
  · intro h0
    simp [progressPercent, h0]

/-- A concrete Progress Tracker entry with `totalSteps = 40` and `22`
completed steps, used as the C9 witness input (the increment makes the
ratio `23/40`, the tie case of `progressPercent_23_40`). -/
def fortyStepsProgress : TaskProgress :=
  { taskId := 3, currentStep := "初始化任务", completedSteps := 22, totalSteps := 40,
    progress := ProgressVal.num 55, isCompleted := false, finalResult := none }

/-- Claim C9, witness for the amended theorem: on a concrete entry with
`totalSteps = 40` and `22` completed steps before the call, the updated
entry has `23` completed steps and its progress is `Math.round` of the
binary64 value of `(23/40)*100`. -/
theorem updateProgress_amended_witness :
    ∃ p' : TaskProgress,
      mapLookup (updateProgress 3 "正在评测 Deepseek"
          { stored := [], runningTasks := [(3, fortyStepsProgress)] }).runningTasks 3 =
        some p' ∧
      p'.completedSteps = fortyStepsProgress.completedSteps + 1 ∧
      p'.currentStep = "正在评测 Deepseek" ∧
      (fortyStepsProgress.totalSteps = 0 → p'.progress = ProgressVal.inf) ∧
      (fortyStepsProgress.totalSteps ≠ 0 → p'.progress =
        ProgressVal.num (jsMathRound
          (fpRatio100 (fortyStepsProgress.completedSteps + 1) fortyStepsProgress.totalSteps))) :=
  updateProgress_amended 3 "正在评测 Deepseek"
    { stored := [], runningTasks := [(3, fortyStepsProgress)] }
    fortyStepsProgress (by decide)

/-! ### Theorems for claim C2 -/

/-- Claim C2, counterexample.  The claim states that a task failing validation
fails "before any side effect", in particular without its stored status being
changed.  On a concrete stored task (status PENDING) whose `aiProducts` list
is empty, `executeEvaluationTask` throws the validation error, but the
`catch` block then persists status FAILED — the stored status *is* changed. -/
theorem executeEvaluationTask_validation_changes_status :
    mapLookup (executeEvaluationTask
        { id := 7, aiProducts := some [], questionTypes := some ["编程问题"],
          userProfile := some ⟨"新手"⟩, programmingLanguage := some ⟨"Python"⟩,
          questions := [], maxFollowUps := 3 }
        (FlowOutcome.ok []) 0
        { stored := [(7, TaskStatus.pending)], runningTasks := [] }).2.1.stored 7 =
      some TaskStatus.failed ∧
    TaskStatus.failed ≠ TaskStatus.pending := by decide

/-- Claim C2, amended.  For every task failing parameter validation (empty or
missing `aiProducts` or `questionTypes`, or missing `userProfile` or
`programmingLanguage`), and any state in which the task has no running
entry, `executeEvaluationTask` returns a FAILED result carrying the
validation message, creates no Progress Tracker entry and leaves
`runningTasks` unchanged; however the error path *does* modify persisted
state: a stored task's status is set to FAILED. -/
theorem executeEvaluationTask_validation_amended (task : EvaluationTask)
    (outcome : FlowOutcome) (duration : Nat) (st : EngineState) (msg : String)
    (hmsg : validationError task = some msg)
    (hrun : mapLookup st.runningTasks task.id = none) :
    (executeEvaluationTask task outcome duration st).1 =
      some { taskId := task.id, status := .failed, sessions := [],
             totalQuestions := 0, totalResponses := 0, averageScore := 0,
             duration := duration, error := some msg } ∧
    (executeEvaluationTask task outcome duration st).2.1.runningTasks =
      st.runningTasks ∧
    Event.trackerCreate task.id ∉ (executeEvaluationTask task outcome duration st).2.2 ∧
    (∀ s, mapLookup st.stored task.id = some s →
      mapLookup (executeEvaluationTask task outcome duration st).2.1.stored task.id =
        some TaskStatus.failed) := by
  have hdel : mapDelete st.runningTasks task.id = st.runningTasks :=
    mapDelete_of_lookup_none _ _ hrun
  cases hstored : mapLookup st.stored task.id with
  | none =>
      refine ⟨?_, ?_, ?_, ?_⟩ <;>
        simp [executeEvaluationTask, catchPath, updateTaskStatus, finalizeTracker,
          finallyBlock, hmsg, hrun, hstored, hdel]
  | some s =>
      refine ⟨?_, ?_, ?_, ?_⟩ <;>
        simp [executeEvaluationTask, catchPath, updateTaskStatus, finalizeTracker,
          finallyBlock, hmsg, hrun, hstored, hdel, mapLookup_set_self]

/-- Claim C2, witness for the amended theorem, at the concrete invalid task and
state of the counterexample. -/
theorem executeEvaluationTask_validation_amended_witness :
    (executeEvaluationTask
        { id := 7, aiProducts := some [], questionTypes := some ["编程问题"],
          userProfile := some ⟨"新手"⟩, programmingLanguage := some ⟨"Python"⟩,
          questions := [], maxFollowUps := 3 }
        (FlowOutcome.ok []) 0
        { stored := [(7, TaskStatus.pending)], runningTasks := [] }).1 =
      some { taskId := 7, status := .failed, sessions := [],
             totalQuestions := 0, totalResponses := 0, averageScore := 0,
             duration := 0,
             error := some ("Task must have valid aiProducts array with at least one product") } ∧
    (executeEvaluationTask
        { id := 7, aiProducts := some [], questionTypes := some ["编程问题"],
          userProfile := some ⟨"新手"⟩, programmingLanguage := some ⟨"Python"⟩,
          questions := [], maxFollowUps := 3 }
        (FlowOutcome.ok []) 0
        { stored := [(7, TaskStatus.pending)], runningTasks := [] }).2.1.runningTasks =
      ({ stored := [(7, TaskStatus.pending)], runningTasks := [] } : EngineState).runningTasks ∧
    Event.trackerCreate 7 ∉ (executeEvaluationTask
        { id := 7, aiProducts := some [], questionTypes := some ["编程问题"],
          userProfile := some ⟨"新手"⟩, programmingLanguage := some ⟨"Python"⟩,
          questions := [], maxFollowUps := 3 }
        (FlowOutcome.ok []) 0
        { stored := [(7, TaskStatus.pending)], runningTasks := [] }).2.2 ∧
    (∀ s, mapLookup ([(7, TaskStatus.pending)] : List (Nat × TaskStatus)) 7 = some s →
      mapLookup (executeEvaluationTask
        { id := 7, aiProducts := some [], questionTypes := some ["编程问题"],
          userProfile := some ⟨"新手"⟩, programmingLanguage := some ⟨"Python"⟩,
          questions := [], maxFollowUps := 3 }
        (FlowOutcome.ok []) 0
        { stored := [(7, TaskStatus.pending)], runningTasks := [] }).2.1.stored 7 =
        some TaskStatus.failed) :=
  executeEvaluationTask_validation_amended
    { id := 7, aiProducts := some [], questionTypes := some ["编程问题"],
      userProfile := some ⟨"新手"⟩, programmingLanguage := some ⟨"Python"⟩,
      questions := [], maxFollowUps := 3 }
    (FlowOutcome.ok []) 0
    { stored := [(7, TaskStatus.pending)], runningTasks := [] }
    "Task must have valid aiProducts array with at least one product"
    (by decide) (by decide)

/-! ### Theorems for claim C3 -/

/-- Whenever validation passes and the concurrency bound is not yet reached,
`executeEvaluationTask` admits the task: a Progress Tracker entry is created
(shared helper for C3 and C7). -/
theorem trackerCreate_mem_of_capacity (task : EvaluationTask)
    (outcome : FlowOutcome) (duration : Nat) (st : EngineState)
    (hv : validationError task = none)
    (hcap : st.runningTasks.length < maxConcurrentTasks) :
    Event.trackerCreate task.id ∈ (executeEvaluationTask task outcome duration st).2.2 := by
  have hlt : ¬ st.runningTasks.length ≥ maxConcurrentTasks := by omega
  cases outcome <;>
    cases hstored : mapLookup st.stored task.id <;>
      simp [executeEvaluationTask, admitTask, successPath, catchPath, finallyBlock,
        finalizeTracker, updateTaskStatus, hv, hlt, hstored, mapLookup_set_self]

/-- Claim C3.  When the number of in-flight entries has reached
`maxConcurrentTasks` (3), a further call with a valid task (not itself in the
running map) fails immediately: the returned result is FAILED with the
capacity message, no Progress Tracker entry is created for it and the
running map is untouched.  And once one in-flight task's entry is removed
(here via `cancelTask`), a new admission succeeds again: the tracker entry is
created. -/
theorem executeEvaluationTask_capacity (task : EvaluationTask)
    (outcome : FlowOutcome) (duration : Nat) (st : EngineState)
    (hv : validationError task = none)
    (hrun : mapLookup st.runningTasks task.id = none) :
    (st.runningTasks.length ≥ maxConcurrentTasks →
      (executeEvaluationTask task outcome duration st).1 =
        some { taskId := task.id, status := .failed, sessions := [],
               totalQuestions := 0, totalResponses := 0, averageScore := 0,
               duration := duration,
               error := some ("Maximum concurrent tasks limit reached") } ∧
      (executeEvaluationTask task outcome duration st).2.1.runningTasks =
        st.runningTasks ∧
      Event.trackerCreate task.id ∉ (executeEvaluationTask task outcome duration st).2.2) ∧
    (∀ k p, st.runningTasks.length = maxConcurrentTasks →
      mapLookup st.runningTasks k = some p →
      Event.trackerCreate task.id ∈
        (executeEvaluationTask task outcome duration (cancelTask k st).1).2.2) := by
  have hdel : mapDelete st.runningTasks task.id = st.runningTasks :=
    mapDelete_of_lookup_none _ _ hrun
  constructor
  · intro hfull
    cases hstored : mapLookup st.stored task.id with
    | none =>
        refine ⟨?_, ?_, ?_⟩ <;>
          simp [executeEvaluationTask, catchPath, updateTaskStatus, finalizeTracker,
            finallyBlock, hv, hfull, hrun, hstored, hdel]
    | some s =>
        refine ⟨?_, ?_, ?_⟩ <;>
          simp [executeEvaluationTask, catchPath, updateTaskStatus, finalizeTracker,
            finallyBlock, hv, hfull, hrun, hstored, hdel, mapLookup_set_self]
  · intro k p hfull hk
    have hkk : (mapLookup st.runningTasks k).isSome := by rw [hk]; rfl
    have hlen1 : (mapSet st.runningTasks k
        { p with isCompleted := true, finalResult := some cancelledResult }).length =
        st.runningTasks.length :=
      length_mapSet_of_isSome _ _ _ hkk
    have hlen2 : (cancelTask k st).1.runningTasks.length < st.runningTasks.length := by
      cases hstored : mapLookup st.stored k <;>
        · simp only [cancelTask, updateTaskStatus, finalizeTracker, hstored, hk]
          have hsome : (mapLookup (mapSet st.runningTasks k
              ({ p with isCompleted := true, finalResult := some cancelledResult })) k).isSome := by
            rw [mapLookup_set_self]; rfl
          have := length_mapDelete_lt _ k hsome
          simp only [hlen1] at this
          simpa using this
    exact trackerCreate_mem_of_capacity task outcome duration _ hv (by omega)

/-- A full running-tasks map: three in-flight entries. -/
def fullRunningState : EngineState :=
  { stored := [(1, TaskStatus.pending)],
    runningTasks := [(11, zeroStepsProgress), (12, zeroStepsProgress), (13, zeroStepsProgress)] }

/-- A concrete valid task used by the C3 and C7 witnesses. -/
def validTask1 : EvaluationTask :=
  { id := 1, aiProducts := some [⟨"doubao", "豆包"⟩],
    questionTypes := some ["编程问题"],
    userProfile := some ⟨"新手"⟩, programmingLanguage := some ⟨"Python"⟩,
    questions := [], maxFollowUps := 2 }

/-- Claim C3, witness: with three in-flight entries, admitting `validTask1`
fails with the capacity error and creates no tracker entry; after cancelling
one of the three, admission succeeds. -/
theorem executeEvaluationTask_capacity_witness :
    (fullRunningState.runningTasks.length ≥ maxConcurrentTasks →
      (executeEvaluationTask validTask1 (FlowOutcome.ok []) 0 fullRunningState).1 =
        some { taskId := validTask1.id, status := .failed, sessions := [],
               totalQuestions := 0, totalResponses := 0, averageScore := 0,
               duration := 0,
               error := some ("Maximum concurrent tasks limit reached") } ∧
      (executeEvaluationTask validTask1 (FlowOutcome.ok []) 0 fullRunningState).2.1.runningTasks =
        fullRunningState.runningTasks ∧
      Event.trackerCreate validTask1.id ∉
        (executeEvaluationTask validTask1 (FlowOutcome.ok []) 0 fullRunningState).2.2) ∧
    (∀ k p, fullRunningState.runningTasks.length = maxConcurrentTasks →
      mapLookup fullRunningState.runningTasks k = some p →
      Event.trackerCreate validTask1.id ∈
        (executeEvaluationTask validTask1 (FlowOutcome.ok []) 0
          (cancelTask k fullRunningState).1).2.2) :=
  executeEvaluationTask_capacity validTask1 (FlowOutcome.ok []) 0 fullRunningState
    (by decide) (by decide)

/-! ### Theorems for claim C1 -/

/-- Whether an event is a terminal-snapshot write for the given task. -/
def isTerminalWriteFor (taskId : Nat) (e : Event) : Bool :=
  match e with
  | .terminalWrite t _ => t == taskId
  | _ => false

/-- Claim C1.  Every admitted task (validation passed, capacity available)
receives exactly one terminal snapshot, on the success path, on the failure
path, and — when the evaluation is interrupted so that neither ran — via the
`finally` guard, which writes the FAILED "Task execution was interrupted"
snapshot; the snapshot is written before the tracker entry is removed (the
removal is the last event), no second snapshot is ever written over it, and
the task leaves the running map. -/
theorem executeEvaluationTask_exactly_one_terminal (task : EvaluationTask)
    (outcome : FlowOutcome) (duration : Nat) (st : EngineState)
    (hv : validationError task = none)
    (hcap : st.runningTasks.length < maxConcurrentTasks) :
    ∃ fr : FinalResult,
      (executeEvaluationTask task outcome duration st).2.2.filter
        (isTerminalWriteFor task.id) = [Event.terminalWrite task.id fr] ∧
      (executeEvaluationTask task outcome duration st).2.2.getLast? =
        some (Event.trackerDelete task.id) ∧
      mapLookup (executeEvaluationTask task outcome duration st).2.1.runningTasks
        task.id = none ∧
      (outcome = FlowOutcome.interrupted → fr = interruptedResult) := by
  have hlt : ¬ st.runningTasks.length ≥ maxConcurrentTasks := by omega
  cases outcome with
  | ok sessions =>
      cases hstored : mapLookup st.stored task.id with
      | none =>
          refine ⟨completedResult (calculateTaskStatistics sessions) duration,
            ?_, ?_, ?_, by simp⟩ <;>
            simp [executeEvaluationTask, admitTask, successPath, finallyBlock,
              finalizeTracker, updateTaskStatus, isTerminalWriteFor, hv, hlt, hstored,
              mapLookup_set_self, mapLookup_delete_self]
      | some s =>
          refine ⟨completedResult (calculateTaskStatistics sessions) duration,
            ?_, ?_, ?_, by simp⟩ <;>
            simp [executeEvaluationTask, admitTask, successPath, finallyBlock,
              finalizeTracker, updateTaskStatus, isTerminalWriteFor, hv, hlt, hstored,
              mapLookup_set_self, mapLookup_delete_self]
  | err msg =>
      cases hstored : mapLookup st.stored task.id with
      | none =>
          refine ⟨failedResult msg duration, ?_, ?_, ?_, by simp⟩ <;>
            simp [executeEvaluationTask, admitTask, catchPath, finallyBlock,
              finalizeTracker, updateTaskStatus, isTerminalWriteFor, hv, hlt, hstored,
              mapLookup_set_self, mapLookup_delete_self]
      | some s =>
          refine ⟨failedResult msg duration, ?_, ?_, ?_, by simp⟩ <;>
            simp [executeEvaluationTask, admitTask, catchPath, finallyBlock,
              finalizeTracker, updateTaskStatus, isTerminalWriteFor, hv, hlt, hstored,
              mapLookup_set_self, mapLookup_delete_self]
  | interrupted =>
      cases hstored : mapLookup st.stored task.id with
      | none =>
          refine ⟨interruptedResult, ?_, ?_, ?_, fun _ => rfl⟩ <;>
            simp [executeEvaluationTask, admitTask, finallyBlock,
              finalizeTracker, updateTaskStatus, isTerminalWriteFor, hv, hlt, hstored,
              mapLookup_set_self, mapLookup_delete_self]
      | some s =>
          refine ⟨interruptedResult, ?_, ?_, ?_, fun _ => rfl⟩ <;>
            simp [executeEvaluationTask, admitTask, finallyBlock,
              finalizeTracker, updateTaskStatus, isTerminalWriteFor, hv, hlt, hstored,
              mapLookup_set_self, mapLookup_delete_self]

/-- A one-task store with no running tasks, used by several witnesses. -/
def pendingState1 : EngineState :=
  { stored := [(1, TaskStatus.pending)], runningTasks := [] }

/-- Claim C1, witness: admitting `validTask1` on an empty running map and
interrupting the flow still yields exactly one terminal snapshot, the entry
removal comes last, and the task leaves the map. -/
theorem executeEvaluationTask_exactly_one_terminal_witness :
    ∃ fr : FinalResult,
      (executeEvaluationTask validTask1 FlowOutcome.interrupted 0 pendingState1).2.2.filter
        (isTerminalWriteFor validTask1.id) = [Event.terminalWrite validTask1.id fr] ∧
      (executeEvaluationTask validTask1 FlowOutcome.interrupted 0 pendingState1).2.2.getLast? =
        some (Event.trackerDelete validTask1.id) ∧
      mapLookup (executeEvaluationTask validTask1 FlowOutcome.interrupted 0
        pendingState1).2.1.runningTasks validTask1.id = none ∧
      (FlowOutcome.interrupted = FlowOutcome.interrupted → fr = interruptedResult) :=
  executeEvaluationTask_exactly_one_terminal validTask1 FlowOutcome.interrupted 0
    pendingState1 (by decide) (by decide)

/-! ### Theorems for claim C7 -/

/-- Claim C7, counterexample.  The claim states the persisted status remains
CANCELLED after `cancelTask` and is not later overwritten by a still-running
pipeline.  Model of the actual interleaving: `validTask1` is admitted, the
flow call suspends, `cancelTask` runs (persisting CANCELLED and freeing the
slot), and then the pipeline resumes and finalizes through the success path
and the `finally` block — exactly the continuation `executeEvaluationTask`
runs after the flow returns.  The persisted status ends up COMPLETED, not
CANCELLED: nothing in the pipeline checks for cancellation. -/
theorem cancelTask_status_overwritten_by_pipeline :
    mapLookup ((finallyBlock 1 (successPath validTask1 [] 5
        (cancelTask 1 (admitTask validTask1 pendingState1).1).1).2.1).1).stored 1 =
      some TaskStatus.completed ∧
    TaskStatus.completed ≠ TaskStatus.cancelled := by decide

/-- Claim C7, amended.  For every task with a running tracker entry,
`cancelTask` persists status CANCELLED (when the task is stored), writes the
zeroed CANCELLED terminal snapshot, removes the entry (so the slot count
strictly decreases) and thereby lets a new valid task be admitted; however
the CANCELLED status is *not* protected: the still-running pipeline
overwrites the persisted status with COMPLETED or FAILED when it finalizes
(see the counterexample). -/
theorem cancelTask_amended (taskId : Nat) (st : EngineState) (p : TaskProgress)
    (h : mapLookup st.runningTasks taskId = some p) :
    (∀ s, mapLookup st.stored taskId = some s →
      mapLookup (cancelTask taskId st).1.stored taskId = some TaskStatus.cancelled) ∧
    Event.terminalWrite taskId cancelledResult ∈ (cancelTask taskId st).2 ∧
    mapLookup (cancelTask taskId st).1.runningTasks taskId = none ∧
    (cancelTask taskId st).1.runningTasks.length < st.runningTasks.length ∧
    (∀ (task : EvaluationTask) (outcome : FlowOutcome) (duration : Nat),
      validationError task = none →
      st.runningTasks.length ≤ maxConcurrentTasks →
      Event.trackerCreate task.id ∈
        (executeEvaluationTask task outcome duration (cancelTask taskId st).1).2.2) := by
  have hkk : (mapLookup st.runningTasks taskId).isSome := by rw [h]; rfl
  have hlen1 : (mapSet st.runningTasks taskId
      { p with isCompleted := true, finalResult := some cancelledResult }).length =
      st.runningTasks.length :=
    length_mapSet_of_isSome _ _ _ hkk
  have hlen2 : (cancelTask taskId st).1.runningTasks.length < st.runningTasks.length := by
    cases hstored : mapLookup st.stored taskId <;>
      · simp only [cancelTask, updateTaskStatus, finalizeTracker, hstored, h]
        have hsome : (mapLookup (mapSet st.runningTasks taskId
            ({ p with isCompleted := true, finalResult := some cancelledResult })) taskId).isSome := by
          rw [mapLookup_set_self]; rfl
        have := length_mapDelete_lt _ taskId hsome
        simp only [hlen1] at this
        simpa using this
  refine ⟨?_, ?_, ?_, hlen2, ?_⟩
  · intro s hs
    simp [cancelTask, updateTaskStatus, finalizeTracker, hs, h, mapLookup_set_self]
  · cases hstored : mapLookup st.stored taskId <;>
      simp [cancelTask, updateTaskStatus, finalizeTracker, hstored, h]
  · cases hstored : mapLookup st.stored taskId <;>
      simp [cancelTask, updateTaskStatus, finalizeTracker, hstored, h,
        mapLookup_delete_self]
  · intro task outcome duration hv hle
    exact trackerCreate_mem_of_capacity task outcome duration _ hv (by omega)

/-- The Progress Tracker entry `admitTask` creates for `validTask1`. -/
def validTask1Progress : TaskProgress :=
  { taskId := 1, currentStep := "初始化任务", completedSteps := 0, totalSteps := 4,
    progress := ProgressVal.num 0, isCompleted := false, finalResult := none }

/-- Claim C7, witness for the amended theorem, on the state in which
`validTask1` has just been admitted. -/
theorem cancelTask_amended_witness :
    (∀ s, mapLookup (admitTask validTask1 pendingState1).1.stored 1 = some s →
      mapLookup (cancelTask 1 (admitTask validTask1 pendingState1).1).1.stored 1 =
        some TaskStatus.cancelled) ∧
    Event.terminalWrite 1 cancelledResult ∈
      (cancelTask 1 (admitTask validTask1 pendingState1).1).2 ∧
    mapLookup (cancelTask 1 (admitTask validTask1 pendingState1).1).1.runningTasks 1 =
      none ∧
    (cancelTask 1 (admitTask validTask1 pendingState1).1).1.runningTasks.length <
      (admitTask validTask1 pendingState1).1.runningTasks.length ∧
    (∀ (task : EvaluationTask) (outcome : FlowOutcome) (duration : Nat),
      validationError task = none →
      (admitTask validTask1 pendingState1).1.runningTasks.length ≤ maxConcurrentTasks →
      Event.trackerCreate task.id ∈
        (executeEvaluationTask task outcome duration
          (cancelTask 1 (admitTask validTask1 pendingState1).1).1).2.2) :=
  cancelTask_amended 1 (admitTask validTask1 pendingState1).1 validTask1Progress
    (by decide)

/-! ## Evaluation flow driver (`TaskSchedulerService.executeEvaluationFlow`)

The per-assistant loop body is
`try { updateProgress(..); session = await createEvaluationSession(..);
sessions.push(session); for (questionType of ..) await processQuestionType(..);
session.status = COMPLETED; ..; await saveSession(session); } catch { log }`.
The only statement of this body that can raise an exception into the
per-assistant `catch` is the awaited session creation, *before* the push:
`processQuestionType` (lines 300–475) wraps its entire body — including
every collaborator call and its own rethrow at line 434 — in a `try`/`catch`
that only logs, `saveSession` (lines 633–639) likewise catches internally,
and the remaining statements are plain assignments.  So `create` is the
fallible result of `createEvaluationSession`, and the question-type loop is
modelled as the total transformation `process` it applies to the already
pushed session object (appending questions, responses and scores; its
internal failures are swallowed and only reduce the appended data). -/

/-- Behaviour of one assistant's processing inside the flow loop. -/
structure ProductRun where
  create : Except String EvaluationSession
  process : EvaluationSession → EvaluationSession

/-- The sessions one assistant contributes to the returned list: none when
session creation threw (nothing was pushed), and otherwise the pushed
session as the question-type loop leaves it, marked COMPLETED (the source
mutates the already pushed object in place; this pure model computes the
element's final value). -/
def flowContribution (r : ProductRun) : List EvaluationSession :=
  match r.create with
  | .error _ => []
  | .ok session => [{ r.process session with status := SessionStatus.completed }]

/-- The `for (const product of task.aiProducts)` loop of
`executeEvaluationFlow`, with the per-assistant `try`/`catch`: an exception
from one assistant is caught and logged, and the loop continues with the
next assistant. -/
def flowLoop (beh : Nat → ProductRun) :
    Nat → List AIProduct → List EvaluationSession → List EvaluationSession
  | _, [], sessions => sessions
  | i, _ :: rest, sessions =>
      let sessions' :=
        match (beh i).create with
        | .error _ => sessions
        | .ok session =>
            sessions ++ [{ (beh i).process session with status := SessionStatus.completed }]
      flowLoop beh (i + 1) rest sessions'

/-- Model of `TaskSchedulerService.executeEvaluationFlow` (lines 249–290): re-validate
the two lists (the "double insurance" guards, which throw), then run the
per-assistant loop starting from an empty session list. -/
def executeEvaluationFlow (task : EvaluationTask) (beh : Nat → ProductRun) :
    Except String (List EvaluationSession) :=
  if (task.aiProducts.getD []).isEmpty then
    .error ("Invalid aiProducts array in executeEvaluationFlow")
  else if (task.questionTypes.getD []).isEmpty then
    .error ("Invalid questionTypes array in executeEvaluationFlow")
  else .ok (flowLoop beh 0 (task.aiProducts.getD []) [])

/-- The flow loop appends each assistant's contribution independently: its
result is the accumulator followed by the concatenation of the per-assistant
contributions, so one assistant's failure never affects the others. -/
theorem flowLoop_eq (beh : Nat → ProductRun) :
    ∀ (ps : List AIProduct) (i : Nat) (acc : List EvaluationSession),
      flowLoop beh i ps acc =
        acc ++ (List.range ps.length).flatMap (fun j => flowContribution (beh (i + j))) := by
  intro ps
  induction ps with
  | nil => intro i acc; simp [flowLoop]
  | cons hd rest ih =>
    intro i acc
    rw [flowLoop]
    have hstep : ∀ acc' : List EvaluationSession,
        (match (beh i).create with
          | .error _ => acc'
          | .ok session =>
              acc' ++ [{ (beh i).process session with status := SessionStatus.completed }]) =
          acc' ++ flowContribution (beh i) := by
      intro acc'
      unfold flowContribution
      cases (beh i).create with
      | error e => simp
      | ok session => simp
    rw [hstep, ih (i + 1)]
    rw [List.length_cons, List.range_succ_eq_map]
    rw [List.flatMap_cons, List.flatMap_map]
    rw [List.append_assoc]
    congr 2
    apply List.flatMap_congr
    intro x _
    congr 2
    omega

/-! ### Theorems for claim C4 -/

/-- Claim C4.  For every task with valid lists and every behaviour of the
per-assistant processing, the flow driver returns the independent
concatenation of the per-assistant contributions — an exception raised while
processing one assistant is caught, and the remaining assistants are
processed unaffected — the session of an assistant whose processing raised
an exception is omitted from the returned list (the only statement of the
per-assistant body that can throw is the awaited session creation, before
the push; everything after the push swallows its exceptions internally),
and each successful assistant contributes exactly its processed session,
marked COMPLETED. -/
theorem executeEvaluationFlow_failure_isolated (task : EvaluationTask)
    (beh : Nat → ProductRun) (ps : List AIProduct) (ts : List String)
    (hp : task.aiProducts = some ps) (hps : ps ≠ [])
    (ht : task.questionTypes = some ts) (hts : ts ≠ []) :
    executeEvaluationFlow task beh =
      Except.ok ((List.range ps.length).flatMap (fun j => flowContribution (beh j))) ∧
    (∀ j e, (beh j).create = Except.error e → flowContribution (beh j) = []) ∧
    (∀ j s, (beh j).create = Except.ok s →
      flowContribution (beh j) =
        [{ (beh j).process s with status := SessionStatus.completed }]) := by
  refine ⟨?_, ?_, ?_⟩
  · unfold executeEvaluationFlow
    rw [hp, ht]
    rw [if_neg (by simp [List.isEmpty_iff, hps]), if_neg (by simp [List.isEmpty_iff, hts])]
    rw [show (some ps).getD ([] : List AIProduct) = ps from rfl]
    rw [flowLoop_eq]
    rw [List.nil_append]
    congr 1
    apply List.flatMap_congr
    intro x _
    congr 2
    omega
  · intro j e hc
    simp [flowContribution, hc]
  · intro j s hc
    simp [flowContribution, hc]

/-- A concrete valid task targeting two assistants, used by the C4
witness. -/
def validTask2 : EvaluationTask :=
  { id := 2, aiProducts := some [⟨"doubao", "豆包"⟩, ⟨"deepseek", "Deepseek"⟩],
    questionTypes := some ["编程问题"],
    userProfile := some ⟨"新手"⟩, programmingLanguage := some ⟨"Python"⟩,
    questions := [], maxFollowUps := 0 }

/-- A concrete session created for the second assistant of `validTask2`. -/
def flowSession4 : EvaluationSession :=
  { id := 9, taskId := 2, productId := "deepseek", questions := [], responses := [],
    scores := [], status := SessionStatus.running }

/-- Behaviour in which the first assistant's session creation throws and the
second assistant succeeds. -/
def flowBeh4 : Nat → ProductRun :=
  fun j =>
    if j = 0 then { create := Except.error ("创建会话失败"), process := id }
    else { create := Except.ok flowSession4, process := id }

/-- Claim C4, witness at a concrete two-assistant task: the first
assistant's creation throws (its session is omitted), the second is
processed unaffected and contributes its completed session. -/
theorem executeEvaluationFlow_failure_isolated_witness :
    executeEvaluationFlow validTask2 flowBeh4 =
      Except.ok ((List.range
        [(⟨"doubao", "豆包"⟩ : AIProduct), ⟨"deepseek", "Deepseek"⟩].length).flatMap
          (fun j => flowContribution (flowBeh4 j))) ∧
    (∀ j e, (flowBeh4 j).create = Except.error e → flowContribution (flowBeh4 j) = []) ∧
    (∀ j s, (flowBeh4 j).create = Except.ok s →
      flowContribution (flowBeh4 j) =
        [{ (flowBeh4 j).process s with status := SessionStatus.completed }]) :=
  executeEvaluationFlow_failure_isolated validTask2 flowBeh4
    [⟨"doubao", "豆包"⟩, ⟨"deepseek", "Deepseek"⟩] ["编程问题"]
    rfl (by simp) rfl (by simp)

end AIEval
